import Mathlib

/-!
Shallow embedding of `src/pytango_DSP7265.py`, the Tango device server for a
Signal Recovery DSP7265 lock-in amplifier, together with theorems settling the
spec's claims about its attribute adapter layer.

Raw device values are modelled as rationals (`ℚ`); the instrument registers
behind the external pymeasure `DSP7265` driver are modelled as a record of
registers with pass-through get/set semantics, per the spec's InstrumentLink
contract.  Each `read_*`/`write_*` method of the Python class becomes a pure
function on that record.
-/

namespace DSP7265

/-- The error kinds named by the spec's error-handling design (§7) that are
relevant to the adapter layer. -/
inductive AdapterError : Type where
  | IndexOutOfRange : AdapterError
  | OutOfBounds : AdapterError
  | NoMatchingValue : AdapterError
deriving DecidableEq, Repr

/-- Python list subscription `xs[i]`: a negative index is first shifted by
`len(xs)`; an index then outside `[0, len(xs))` raises `IndexError`
(modelled as `IndexOutOfRange`). -/
def pyGet {α : Type} (xs : List α) (i : ℤ) : Except AdapterError α :=
  if h : 0 ≤ i ∧ i < (xs.length : ℤ) then .ok (xs.get ⟨i.toNat, by omega⟩)
  else if h2 : i < 0 ∧ 0 ≤ (xs.length : ℤ) + i then
    .ok (xs.get ⟨((xs.length : ℤ) + i).toNat, by omega⟩)
  else .error .IndexOutOfRange

/-- `self.SLOPES = [6, 12, 18, 24]` from `init_device` (source line 115). -/
def SLOPES : List ℚ := [6, 12, 18, 24]

/-- `self.GAINS = [0, 10, 20, 30, 40, 50, 60, 70, 80, 90]` from `init_device`
(source line 116). -/
def GAINS : List ℚ := [0, 10, 20, 30, 40, 50, 60, 70, 80, 90]

/-- Modelled from the spec: `self.device.TIME_CONSTANTS`, the external
pymeasure driver's ordered time-constant candidate table (29 entries, in
seconds), matching the 29 enum labels "10 us" … "50 ks" declared for the
`timeconstant` attribute in the source. -/
def TIME_CONSTANTS : List ℚ :=
  [10/1000000, 20/1000000, 40/1000000, 80/1000000, 160/1000000, 320/1000000,
   640/1000000,
   5/1000, 10/1000, 20/1000, 50/1000, 100/1000, 200/1000, 500/1000,
   1, 2, 5, 10, 20, 50, 100, 200, 500,
   1000, 2000, 5000, 10000, 20000, 50000]

/-- Modelled from the spec: `self.device.SENSITIVITIES`, the external pymeasure
driver's ordered sensitivity candidate table (28 entries, in volts), matching
the 28 enum labels "nan", "2 nV" … "1 V" declared for the `sensitivity`
attribute in the source.  The entry under the label "nan" is modelled as `0`
(any value distinct from all genuine sensitivities gives the same resolution
behaviour). -/
def SENSITIVITIES : List ℚ :=
  [0, 2/1000000000, 5/1000000000, 10/1000000000, 20/1000000000, 50/1000000000,
   100/1000000000, 200/1000000000, 500/1000000000,
   1/1000000, 2/1000000, 5/1000000, 10/1000000, 20/1000000, 50/1000000,
   100/1000000, 200/1000000, 500/1000000,
   1/1000, 2/1000, 5/1000, 10/1000, 20/1000, 50/1000, 100/1000, 200/1000,
   500/1000, 1]

/-- Modelled from the spec: `self.device.REFERENCES`, the external pymeasure
driver's ordered reference-source table, matching the enum labels of the
`reference` attribute in the source. -/
def REFERENCES : List String := ["internal", "external rear", "external front"]

/-- The registers of the external instrument link (`self.device`), one field
per pymeasure property the source touches.  Per the spec's InstrumentLink
contract they are raw pass-through value stores: `set` stores a raw value,
`get` returns the stored value. -/
structure Device : Type where
  x : ℚ
  y : ℚ
  mag : ℚ
  phase : ℚ
  time_constant : ℚ
  sensitivity : ℚ
  gain : ℚ
  slope : ℚ
  frequency : ℚ
  reference : String
  coupling : ℚ
  ground : ℚ
deriving DecidableEq, Repr

/-- A concrete device state used for closed evaluations. -/
def device0 : Device :=
  { x := 0, y := 0, mag := 0, phase := 0, time_constant := 0, sensitivity := 0,
    gain := 0, slope := 0, frequency := 0, reference := "internal",
    coupling := 0, ground := 0 }

/-- The source's enum readback computation
`int(np.sum(np.arange(n) * (raw * np.ones(n) == TABLE)))`: the sum of the
indices whose candidate equals the raw value exactly (`0` when none does). -/
def matchSum (cands : List ℚ) (raw : ℚ) : ℕ :=
  (cands.enum.map fun p => if raw = p.2 then p.1 else 0).sum

/-- Modelled from the spec: the ValueResolver contract of §4.2 — scan the
candidates in order and return the first index within `tol` of `raw`, failing
with `NoMatchingValue` when no candidate matches.  Stated only to compare the
source's `matchSum` readback against the spec's prescribed behaviour. -/
def resolveSpec (cands : List ℚ) (tol : ℚ) (raw : ℚ) : Except AdapterError ℕ :=
  match cands.enum.find? (fun p => decide (|raw - p.2| ≤ tol)) with
  | some p => .ok p.1
  | none => .error .NoMatchingValue

/-- `read_x`: `return 10**9*self.device.x`. -/
def read_x (d : Device) : ℚ := 10 ^ 9 * d.x

/-- `read_y`: `return 10**9*self.device.y`. -/
def read_y (d : Device) : ℚ := 10 ^ 9 * d.y

/-- `read_R`: `return 10**9*self.device.mag`. -/
def read_R (d : Device) : ℚ := 10 ^ 9 * d.mag

/-- `read_Theta`: `return self.device.phase`. -/
def read_Theta (d : Device) : ℚ := d.phase

/-- `read_timeconstant`: `tc = np.ones(29)*self.device.time_constant;
return int(np.sum(np.arange(29)*(tc == self.device.TIME_CONSTANTS)))`. -/
def read_timeconstant (d : Device) : ℕ := matchSum TIME_CONSTANTS d.time_constant

/-- `read_sensitivity`: `sens = np.ones(28)*self.device.sensitivity;
return int(np.sum(np.arange(28)*(sens == self.device.SENSITIVITIES)))`. -/
def read_sensitivity (d : Device) : ℕ := matchSum SENSITIVITIES d.sensitivity

/-- Modelled from the spec: what `self.device.gain[0]` reports.  The external
pymeasure `gain` property accepts the AC gain in dB on assignment and reports
the instrument's AC-gain code (dB divided by 10) on query — the spec's scenario
"write `gain` index 3 ('30 db') → underlying raw becomes 30 → subsequent read
returns index 3" fixes this conversion, and the source's `read_gain`
multiplies the reported code by 10 before matching against `GAINS`. -/
def gainCode (d : Device) : ℚ := d.gain / 10

/-- `read_gain`: `g = 10*np.ones(10)*self.device.gain[0];
return int(np.sum(np.arange(10)*(g == self.GAINS)))`. -/
def read_gain (d : Device) : ℕ := matchSum GAINS (10 * gainCode d)

/-- `read_slope`: `sl = np.ones(4)*self.device.slope;
return int(np.sum(np.arange(4)*(sl == self.SLOPES)))`. -/
def read_slope (d : Device) : ℕ := matchSum SLOPES d.slope

/-- `read_frequency`: `return self.device.frequency`. -/
def read_frequency (d : Device) : ℚ := d.frequency

/-- `read_reference`: the `if/elif` chain over the reference string; a string
matching no branch falls off the end of the Python function and returns
`None`, modelled as `Option.none`. -/
def read_reference (d : Device) : Option ℕ :=
  if d.reference = "internal" then some 0
  else if d.reference = "external rear" then some 1
  else if d.reference = "external front" then some 2
  else none

/-- `read_ACcoupling`: `if cou == 1.0: return True else: return False`. -/
def read_ACcoupling (d : Device) : Bool :=
  if d.coupling = 1 then true else false

/-- `read_ground`: `if cou == 1.0: return True else: return False`. -/
def read_ground (d : Device) : Bool :=
  if d.ground = 1 then true else false

/-- `write_timeconstant`:
`self.device.time_constant = self.device.TIME_CONSTANTS[value]`. -/
def write_timeconstant (d : Device) (value : ℤ) : Except AdapterError Device :=
  (pyGet TIME_CONSTANTS value).map fun v => { d with time_constant := v }

/-- `write_sensitivity`:
`self.device.sensitivity = self.device.SENSITIVITIES[value]`. -/
def write_sensitivity (d : Device) (value : ℤ) : Except AdapterError Device :=
  (pyGet SENSITIVITIES value).map fun v => { d with sensitivity := v }

/-- `write_gain`: `self.device.gain = self.GAINS[value]`. -/
def write_gain (d : Device) (value : ℤ) : Except AdapterError Device :=
  (pyGet GAINS value).map fun v => { d with gain := v }

/-- `write_slope`: `self.device.slope = self.SLOPES[value]`. -/
def write_slope (d : Device) (value : ℤ) : Except AdapterError Device :=
  (pyGet SLOPES value).map fun v => { d with slope := v }

/-- `write_frequency`: `self.device.frequency = value`. -/
def write_frequency (d : Device) (value : ℚ) : Device :=
  { d with frequency := value }

/-- Modelled from the spec: the framework-side bounds check of the `frequency`
attribute.  The source declares `min_value = 0.001, max_value = 250000` on the
attribute (lines 88–94); the external Tango framework rejects a write outside
these inclusive bounds (`OutOfBounds`) before `write_frequency` runs. -/
def write_frequency_checked (d : Device) (value : ℚ) : Except AdapterError Device :=
  if 1/1000 ≤ value ∧ value ≤ 250000 then .ok (write_frequency d value)
  else .error .OutOfBounds

/-- `write_reference`: `self.device.reference = self.device.REFERENCES[value]`. -/
def write_reference (d : Device) (value : ℤ) : Except AdapterError Device :=
  (pyGet REFERENCES value).map fun v => { d with reference := v }

/-- `write_ACcoupling`: `self.device.coupling = 1 if value else 0`. -/
def write_ACcoupling (d : Device) (value : Bool) : Device :=
  if value then { d with coupling := 1 } else { d with coupling := 0 }

/-- `write_ground`: `self.device.ground = 1 if value else 0`. -/
def write_ground (d : Device) (value : Bool) : Device :=
  if value then { d with ground := 1 } else { d with ground := 0 }

deriving instance DecidableEq for Except

/- The Batteries rational-number arithmetic is `@[irreducible]` only to keep
`simp`/`rfl` from unfolding it by accident; it is perfectly computable, and the
closed-form evaluations below need `decide` to run it. -/
attribute [local semireducible] Rat.add Rat.mul Rat.sub Rat.inv

/-- `pyGet` at a non-negative in-range index returns the entry at that index. -/
theorem pyGet_in_range {α : Type} (xs : List α) (i : ℤ) (a : α)
    (h0 : 0 ≤ i) (h1 : i < (xs.length : ℤ)) :
    pyGet xs i = .ok (xs.getD i.toNat a) := by
  simp only [pyGet]
  rw [dif_pos ⟨h0, h1⟩, List.getD_eq_getElem _ _ (by omega), List.get_eq_getElem]

/-- `pyGet` at a negative index in `[-len, -1]` wraps around, Python-style. -/
theorem pyGet_neg_wrap {α : Type} (xs : List α) (i : ℤ) (a : α)
    (h0 : -(xs.length : ℤ) ≤ i) (h1 : i < 0) :
    pyGet xs i = .ok (xs.getD ((xs.length : ℤ) + i).toNat a) := by
  simp only [pyGet]
  rw [dif_neg (by omega : ¬(0 ≤ i ∧ i < (xs.length : ℤ))),
    dif_pos ⟨h1, by omega⟩, List.getD_eq_getElem _ _ (by omega), List.get_eq_getElem]

/-- `pyGet` at an index `≥ len` or `< -len` raises `IndexError`. -/
theorem pyGet_out_of_range {α : Type} (xs : List α) (i : ℤ)
    (h : (xs.length : ℤ) ≤ i ∨ i < -(xs.length : ℤ)) :
    pyGet xs i = .error .IndexOutOfRange := by
  simp only [pyGet]
  rcases h with h | h <;>
    rw [dif_neg (by omega), dif_neg (by omega)]

/-- Writing then reading `timeconstant` only interacts through the
`time_constant` register, independently of the rest of the device state. -/
theorem write_timeconstant_read (d : Device) (i : ℤ) :
    (write_timeconstant d i).map read_timeconstant
      = (pyGet TIME_CONSTANTS i).map (matchSum TIME_CONSTANTS) := by
  cases h : pyGet TIME_CONSTANTS i <;>
    simp [write_timeconstant, read_timeconstant, h, Except.map]

/-- Writing then reading `sensitivity` only interacts through the
`sensitivity` register. -/
theorem write_sensitivity_read (d : Device) (i : ℤ) :
    (write_sensitivity d i).map read_sensitivity
      = (pyGet SENSITIVITIES i).map (matchSum SENSITIVITIES) := by
  cases h : pyGet SENSITIVITIES i <;>
    simp [write_sensitivity, read_sensitivity, h, Except.map]

/-- Writing then reading `gain` only interacts through the `gain` register. -/
theorem write_gain_read (d : Device) (i : ℤ) :
    (write_gain d i).map read_gain
      = (pyGet GAINS i).map (fun v => matchSum GAINS (10 * (v / 10))) := by
  cases h : pyGet GAINS i <;>
    simp [write_gain, read_gain, gainCode, h, Except.map]

/-- Writing then reading `slope` only interacts through the `slope`
register. -/
theorem write_slope_read (d : Device) (i : ℤ) :
    (write_slope d i).map read_slope
      = (pyGet SLOPES i).map (matchSum SLOPES) := by
  cases h : pyGet SLOPES i <;>
    simp [write_slope, read_slope, h, Except.map]

/-- Writing then reading `reference` only interacts through the `reference`
register. -/
theorem write_reference_read (d : Device) (i : ℤ) :
    (write_reference d i).map read_reference
      = (pyGet REFERENCES i).map (fun s =>
          if s = "internal" then some 0
          else if s = "external rear" then some 1
          else if s = "external front" then some 2 else none) := by
  cases h : pyGet REFERENCES i <;>
    simp [write_reference, read_reference, h, Except.map]

/-- Each of the 29 time-constant candidates resolves back to its own index. -/
theorem tc_round : ∀ i : ℕ, i < 29 →
    (pyGet TIME_CONSTANTS (i : ℤ)).map (matchSum TIME_CONSTANTS) = Except.ok i := by
  decide

/-- Each of the 28 sensitivity candidates resolves back to its own index. -/
theorem sens_round : ∀ i : ℕ, i < 28 →
    (pyGet SENSITIVITIES (i : ℤ)).map (matchSum SENSITIVITIES) = Except.ok i := by
  decide

/-- Each of the 10 gain candidates resolves back to its own index. -/
theorem gain_round : ∀ i : ℕ, i < 10 →
    (pyGet GAINS (i : ℤ)).map (fun v => matchSum GAINS (10 * (v / 10)))
      = Except.ok i := by
  decide

/-- Each of the 4 slope candidates resolves back to its own index. -/
theorem slope_round : ∀ i : ℕ, i < 4 →
    (pyGet SLOPES (i : ℤ)).map (matchSum SLOPES) = Except.ok i := by
  decide

/-- Each of the 3 reference candidates resolves back to its own index. -/
theorem ref_round : ∀ i : ℕ, i < 3 →
    (pyGet REFERENCES (i : ℤ)).map (fun s =>
        if s = "internal" then some 0
        else if s = "external rear" then some 1
        else if s = "external front" then some 2 else none)
      = Except.ok (some i) := by
  decide

/-- C1: the claim says an unmatched raw value makes the read fail with
`NoMatchingValue` and never silently resolve to index 0.  The code does the
opposite: `read_timeconstant` and `read_gain` compute the index-weighted sum of
exact matches, which is `0` when no candidate matches, so the raw value `123`
(not a candidate of either table, and resolved to `NoMatchingValue` by the
spec's resolver at tolerance 1/1000) is silently reported as index 0. -/
theorem unmatched_raw_reads_index_zero :
    ((123 : ℚ) ∉ TIME_CONSTANTS) ∧
    resolveSpec TIME_CONSTANTS (mkRat 1 1000) 123 = .error .NoMatchingValue ∧
    read_timeconstant { device0 with time_constant := 123 } = 0 ∧
    ((123 : ℚ) ∉ GAINS) ∧
    read_gain { device0 with gain := 123 } = 0 := by
  decide

/-- C2: for every enumerated attribute (timeconstant, sensitivity, gain,
slope, reference) and every valid index, writing the index and then reading
the attribute back returns exactly that index. -/
theorem enum_round_trip (d : Device) (i : ℕ) :
    (i < 29 → (write_timeconstant d i).map read_timeconstant = .ok i) ∧
    (i < 28 → (write_sensitivity d i).map read_sensitivity = .ok i) ∧
    (i < 10 → (write_gain d i).map read_gain = .ok i) ∧
    (i < 4 → (write_slope d i).map read_slope = .ok i) ∧
    (i < 3 → (write_reference d i).map read_reference = .ok (some i)) := by
  refine ⟨fun h => ?_, fun h => ?_, fun h => ?_, fun h => ?_, fun h => ?_⟩
  · rw [write_timeconstant_read]; exact tc_round i h
  · rw [write_sensitivity_read]; exact sens_round i h
  · rw [write_gain_read]; exact gain_round i h
  · rw [write_slope_read]; exact slope_round i h
  · rw [write_reference_read]; exact ref_round i h

/-- C2 witness: concrete round trips, in particular timeconstant index 7. -/
theorem enum_round_trip_witness :
    (write_timeconstant device0 7).map read_timeconstant = .ok 7 ∧
    (write_sensitivity device0 5).map read_sensitivity = .ok 5 ∧
    (write_gain device0 3).map read_gain = .ok 3 ∧
    (write_slope device0 2).map read_slope = .ok 2 ∧
    (write_reference device0 1).map read_reference = .ok (some 1) :=
  ⟨(enum_round_trip device0 7).1 (by decide),
   (enum_round_trip device0 5).2.1 (by decide),
   (enum_round_trip device0 3).2.2.1 (by decide),
   (enum_round_trip device0 2).2.2.2.1 (by decide),
   (enum_round_trip device0 1).2.2.2.2 (by decide)⟩

/-- C3: the claim says a raw value within tolerance of `candidates[i]` but not
exactly equal to it resolves to `i`.  The code matches by exact equality only:
the raw sensitivity `2e-9 + 1e-13` is within tolerance `1e-12` of candidate 1
(`2 nV`) — the spec's resolver returns index 1 — yet `read_sensitivity`
returns 0, the sum of zero exact matches. -/
theorem near_candidate_reads_index_zero :
    (2/1000000000 + 1/10000000000000 : ℚ) ≠ SENSITIVITIES.getD 1 0 ∧
    |(2/1000000000 + 1/10000000000000 : ℚ) - SENSITIVITIES.getD 1 0|
      ≤ mkRat 1 1000000000000 ∧
    resolveSpec SENSITIVITIES (mkRat 1 1000000000000)
      (2/1000000000 + 1/10000000000000) = .ok 1 ∧
    read_sensitivity
      { device0 with sensitivity := 2/1000000000 + 1/10000000000000 } = 0 := by
  decide

/-- C4: the claim says that when more than one candidate matches within
tolerance, the first (smallest) matching index wins.  The code implements no
tolerance search at all: raw slope `15` lies within tolerance `4` of both
candidate 1 (`12`) and candidate 2 (`18`), the spec's resolver returns the
first match, index 1, but `read_slope` returns 0 (no exact match).  Moreover
on duplicate exact matches the code's readback returns the sum of the matching
indices, not the first one (`matchSum [5, 5] 5 = 0 + 1 = 1`). -/
theorem multi_match_not_first_index :
    |15 - SLOPES.getD 1 0| ≤ 4 ∧ |15 - SLOPES.getD 2 0| ≤ 4 ∧
    resolveSpec SLOPES 4 15 = .ok 1 ∧
    read_slope { device0 with slope := 15 } = 0 ∧
    matchSum [5, 5] 5 = 1 := by
  decide

/-- C5 (amended): for every enumerated attribute (timeconstant, sensitivity,
gain, slope, reference), an index in `[0, len-1]` stores `candidates[index]`
exactly and unchanged; an index `≥ len` or `< -len` fails with
`IndexOutOfRange`; but a negative index in `[-len, -1]` does not fail —
Python list indexing wraps it around to `candidates[len + index]`. -/
theorem write_enum_index_contract (d : Device) (i : ℤ) :
    (0 ≤ i → i < 29 →
      write_timeconstant d i
        = .ok { d with time_constant := TIME_CONSTANTS.getD i.toNat 0 }) ∧
    (29 ≤ i ∨ i < -29 → write_timeconstant d i = .error .IndexOutOfRange) ∧
    (-29 ≤ i → i < 0 →
      write_timeconstant d i
        = .ok { d with time_constant := TIME_CONSTANTS.getD (29 + i).toNat 0 }) ∧
    (0 ≤ i → i < 28 →
      write_sensitivity d i
        = .ok { d with sensitivity := SENSITIVITIES.getD i.toNat 0 }) ∧
    (28 ≤ i ∨ i < -28 → write_sensitivity d i = .error .IndexOutOfRange) ∧
    (-28 ≤ i → i < 0 →
      write_sensitivity d i
        = .ok { d with sensitivity := SENSITIVITIES.getD (28 + i).toNat 0 }) ∧
    (0 ≤ i → i < 10 →
      write_gain d i = .ok { d with gain := GAINS.getD i.toNat 0 }) ∧
    (10 ≤ i ∨ i < -10 → write_gain d i = .error .IndexOutOfRange) ∧
    (-10 ≤ i → i < 0 →
      write_gain d i = .ok { d with gain := GAINS.getD (10 + i).toNat 0 }) ∧
    (0 ≤ i → i < 4 →
      write_slope d i = .ok { d with slope := SLOPES.getD i.toNat 0 }) ∧
    (4 ≤ i ∨ i < -4 → write_slope d i = .error .IndexOutOfRange) ∧
    (-4 ≤ i → i < 0 →
      write_slope d i = .ok { d with slope := SLOPES.getD (4 + i).toNat 0 }) ∧
    (0 ≤ i → i < 3 →
      write_reference d i
        = .ok { d with reference := REFERENCES.getD i.toNat "" }) ∧
    (3 ≤ i ∨ i < -3 → write_reference d i = .error .IndexOutOfRange) ∧
    (-3 ≤ i → i < 0 →
      write_reference d i
        = .ok { d with reference := REFERENCES.getD (3 + i).toNat "" }) := by
  have ht : (TIME_CONSTANTS.length : ℤ) = 29 := rfl
  have hs : (SENSITIVITIES.length : ℤ) = 28 := rfl
  have hg : (GAINS.length : ℤ) = 10 := rfl
  have hl : (SLOPES.length : ℤ) = 4 := rfl
  have hr : (REFERENCES.length : ℤ) = 3 := rfl
  refine ⟨fun h0 h1 => ?_, fun h => ?_, fun h0 h1 => ?_,
    fun h0 h1 => ?_, fun h => ?_, fun h0 h1 => ?_,
    fun h0 h1 => ?_, fun h => ?_, fun h0 h1 => ?_,
    fun h0 h1 => ?_, fun h => ?_, fun h0 h1 => ?_,
    fun h0 h1 => ?_, fun h => ?_, fun h0 h1 => ?_⟩
  · simp only [write_timeconstant,
      pyGet_in_range TIME_CONSTANTS i 0 h0 (by rw [ht]; exact h1)]
    rfl
  · simp only [write_timeconstant,
      pyGet_out_of_range TIME_CONSTANTS i (by rw [ht]; omega)]
    rfl
  · simp only [write_timeconstant,
      pyGet_neg_wrap TIME_CONSTANTS i 0 (by rw [ht]; omega) h1, ht]
    rfl
  · simp only [write_sensitivity,
      pyGet_in_range SENSITIVITIES i 0 h0 (by rw [hs]; exact h1)]
    rfl
  · simp only [write_sensitivity,
      pyGet_out_of_range SENSITIVITIES i (by rw [hs]; omega)]
    rfl
  · simp only [write_sensitivity,
      pyGet_neg_wrap SENSITIVITIES i 0 (by rw [hs]; omega) h1, hs]
    rfl
  · simp only [write_gain, pyGet_in_range GAINS i 0 h0 (by rw [hg]; exact h1)]
    rfl
  · simp only [write_gain, pyGet_out_of_range GAINS i (by rw [hg]; omega)]
    rfl
  · simp only [write_gain, pyGet_neg_wrap GAINS i 0 (by rw [hg]; omega) h1, hg]
    rfl
  · simp only [write_slope, pyGet_in_range SLOPES i 0 h0 (by rw [hl]; exact h1)]
    rfl
  · simp only [write_slope, pyGet_out_of_range SLOPES i (by rw [hl]; omega)]
    rfl
  · simp only [write_slope, pyGet_neg_wrap SLOPES i 0 (by rw [hl]; omega) h1, hl]
    rfl
  · simp only [write_reference,
      pyGet_in_range REFERENCES i "" h0 (by rw [hr]; exact h1)]
    rfl
  · simp only [write_reference,
      pyGet_out_of_range REFERENCES i (by rw [hr]; omega)]
    rfl
  · simp only [write_reference,
      pyGet_neg_wrap REFERENCES i "" (by rw [hr]; omega) h1, hr]
    rfl

/-- C5 witness: index 3 stores gain candidate 3 (30 dB); the first
out-of-range index of each of the five enumerated attributes is rejected
with `IndexOutOfRange`. -/
theorem write_enum_index_contract_witness :
    write_gain device0 3 = .ok { device0 with gain := GAINS.getD (3 : ℤ).toNat 0 } ∧
    write_timeconstant device0 (-30) = .error .IndexOutOfRange ∧
    write_sensitivity device0 28 = .error .IndexOutOfRange ∧
    write_gain device0 12 = .error .IndexOutOfRange ∧
    write_slope device0 4 = .error .IndexOutOfRange ∧
    write_reference device0 3 = .error .IndexOutOfRange :=
  ⟨(write_enum_index_contract device0 3).2.2.2.2.2.2.1 (by decide) (by decide),
   (write_enum_index_contract device0 (-30)).2.1 (Or.inr (by decide)),
   (write_enum_index_contract device0 28).2.2.2.2.1 (Or.inl (by decide)),
   (write_enum_index_contract device0 12).2.2.2.2.2.2.2.1 (Or.inl (by decide)),
   (write_enum_index_contract device0 4).2.2.2.2.2.2.2.2.2.2.1 (Or.inl (by decide)),
   (write_enum_index_contract device0 3).2.2.2.2.2.2.2.2.2.2.2.2.2.1
     (Or.inl (by decide))⟩

/-- C5 counterexample: the claim as stated says every index outside
`[0, len-1]`, negative indices included, fails with `IndexOutOfRange`.
Writing gain index `-1` does not fail: Python wraps it to the last candidate
and stores `90`. -/
theorem negative_index_write_succeeds :
    write_gain device0 (-1) = .ok { device0 with gain := 90 } ∧
    write_gain device0 (-1) ≠ .error .IndexOutOfRange := by
  decide

/-- C6: a raw value reads back as `true` exactly when it equals 1.0 (0.0 and
0.5 read as `false`), `true` writes raw 1.0 and `false` writes raw 0.0, and
the boolean write/read round trip is the identity (shown for both boolean
attributes, ACcoupling and ground). -/
theorem boolean_coercion_contract (d : Device) (b : Bool) (raw : ℚ) :
    read_ACcoupling (write_ACcoupling d b) = b ∧
    read_ground (write_ground d b) = b ∧
    (write_ACcoupling d true).coupling = 1 ∧
    (write_ACcoupling d false).coupling = 0 ∧
    (read_ACcoupling { d with coupling := raw } = true ↔ raw = 1) ∧
    read_ACcoupling { d with coupling := 1/2 } = false ∧
    read_ACcoupling { d with coupling := 0 } = false := by
  refine ⟨?_, ?_, rfl, rfl, ?_, ?_, ?_⟩
  · cases b <;> simp [read_ACcoupling, write_ACcoupling]
  · cases b <;> simp [read_ground, write_ground]
  · by_cases h : raw = 1 <;> simp [read_ACcoupling, h]
  · norm_num [read_ACcoupling]
  · norm_num [read_ACcoupling]

/-- C7: reading a scaled scalar attribute multiplies the raw device value by
the scale factor 1e9 (volts to nanovolts); in particular a raw signal
magnitude of 1e-9 volts reads back as exactly 1 nV on `R`. -/
theorem scaled_scalar_read (d : Device) :
    read_R d = 10 ^ 9 * d.mag ∧
    read_x d = 10 ^ 9 * d.x ∧
    read_y d = 10 ^ 9 * d.y ∧
    read_R { d with mag := 1 / 10 ^ 9 } = 1 := by
  refine ⟨rfl, rfl, rfl, ?_⟩
  show (10 : ℚ) ^ 9 * (1 / 10 ^ 9) = 1
  norm_num

/-- C8: writing `frequency` fails with `OutOfBounds` for every value outside
the inclusive bounds [0.001, 250000] declared on the attribute, and succeeds
for every value inside them, after which reading returns the written value. -/
theorem frequency_write_bounds (d : Device) (v : ℚ) :
    (v < 1/1000 ∨ 250000 < v →
      write_frequency_checked d v = .error .OutOfBounds) ∧
    (1/1000 ≤ v → v ≤ 250000 →
      write_frequency_checked d v = .ok (write_frequency d v) ∧
      read_frequency (write_frequency d v) = v) := by
  constructor
  · intro h
    unfold write_frequency_checked
    rw [if_neg]
    rintro ⟨h1, h2⟩
    rcases h with h | h <;> linarith
  · intro h1 h2
    unfold write_frequency_checked
    rw [if_pos ⟨h1, h2⟩]
    exact ⟨rfl, rfl⟩

/-- C8 witness: writing 300000 fails with `OutOfBounds`; writing 1000
succeeds and reads back 1000. -/
theorem frequency_write_bounds_witness :
    write_frequency_checked device0 300000 = .error .OutOfBounds ∧
    write_frequency_checked device0 1000 = .ok (write_frequency device0 1000) ∧
    read_frequency (write_frequency device0 1000) = 1000 :=
  ⟨(frequency_write_bounds device0 300000).1 (Or.inr (by decide)),
   ((frequency_write_bounds device0 1000).2 (by decide) (by decide)).1,
   ((frequency_write_bounds device0 1000).2 (by decide) (by decide)).2⟩

/-- C9: writing gain index 3 stores the raw value 30 (dB) in the device gain
register, and reading the gain attribute back from that state returns
index 3. -/
theorem gain_write_then_read (d : Device) :
    write_gain d 3 = .ok { d with gain := 30 } ∧
    read_gain { d with gain := 30 } = 3 := by
  constructor
  · rfl
  · show matchSum GAINS (10 * ((30 : ℚ) / 10)) = 3
    decide

/-- C10: reading the reference attribute returns index 0, 1 or 2 for the
device strings "internal", "external rear" and "external front" respectively,
and returns no value at all (`none`) for any other string. -/
theorem reference_read_mapping (d : Device) :
    read_reference { d with reference := "internal" } = some 0 ∧
    read_reference { d with reference := "external rear" } = some 1 ∧
    read_reference { d with reference := "external front" } = some 2 ∧
    ∀ s : String, s ≠ "internal" → s ≠ "external rear" → s ≠ "external front" →
      read_reference { d with reference := s } = none := by
  refine ⟨rfl, rfl, rfl, fun s h1 h2 h3 => ?_⟩
  simp [read_reference, h1, h2, h3]

/-- C10 witness: the mapping evaluated at "internal" and at an unknown
string. -/
theorem reference_read_mapping_witness :
    read_reference { device0 with reference := "internal" } = some 0 ∧
    read_reference { device0 with reference := "unknown" } = none :=
  ⟨(reference_read_mapping device0).1,
   (reference_read_mapping device0).2.2.2 "unknown"
     (by decide) (by decide) (by decide)⟩

end DSP7265
